import Mathlib

/-!
Shallow embedding of `bip300301_messages` (`src/lib.rs`): the coinbase-message
codec (tag registry, decoder, encoder) and the withdrawal-bundle blinded-id
transformation, together with theorems settling the frozen claims about them.

Bytes are modelled as `Nat` (values `< 256` in all well-formed data; the code
never performs arithmetic on them except the big-endian u16 reads, which are
modelled exactly).  `nom` parser results `IResult<&[u8], T>` are modelled by
`PResult`: `ok rest val` for `Ok((rest, val))`, `err` for `Err(..)` (the code
never inspects the error payload, only whether parsing failed), and `panic`
for a Rust panic (the `try_into().unwrap()` and slice-index sites), so that
panic-freedom is a provable proposition.
-/

/-- Result of a nom-style parser: success with unconsumed remainder, a
structured parse error, or a Rust panic (modelled explicitly so that
panic-freedom can be stated and proved). -/
inductive PResult (α : Type) where
  | ok (rest : List Nat) (val : α)
  | err
  | panic
deriving DecidableEq

/-- `OP_RETURN.to_u8()` -/
def OP_RETURN_BYTE : Nat := 0x6a

/-- `OP_DRIVECHAIN = OP_NOP5`, `OP_NOP5.to_u8()` -/
def OP_DRIVECHAIN_BYTE : Nat := 0xb4

/-- `OP_PUSHBYTES_1.to_u8()` -/
def OP_PUSHBYTES_1_BYTE : Nat := 0x01

/-- `OP_TRUE.to_u8()` -/
def OP_TRUE_BYTE : Nat := 0x51

def M1_PROPOSE_SIDECHAIN_TAG : List Nat := [0xD5, 0xE0, 0xC4, 0xAF]

def M2_ACK_SIDECHAIN_TAG : List Nat := [0xD6, 0xE1, 0xC5, 0xDF]

def M3_PROPOSE_BUNDLE_TAG : List Nat := [0xD4, 0x5A, 0xA9, 0x43]

def M4_ACK_BUNDLES_TAG : List Nat := [0xD7, 0x7D, 0x17, 0x76]

def M7_BMM_ACCEPT_TAG : List Nat := [0xD1, 0x61, 0x73, 0x68]

def M8_BMM_REQUEST_TAG : List Nat := [0x00, 0xBF, 0x00]

def ABSTAIN_ONE_BYTE : Nat := 0xFF

def ABSTAIN_TWO_BYTES : Nat := 0xFFFF

def ALARM_ONE_BYTE : Nat := 0xFE

def ALARM_TWO_BYTES : Nat := 0xFFFE

def REPEAT_PREVIOUS_TAG : List Nat := [0x00]

def ONE_BYTE_TAG : List Nat := [0x01]

def TWO_BYTES_TAG : List Nat := [0x02]

def LEADING_BY_50_TAG : List Nat := [0x03]

/-- `enum M4AckBundles` -/
inductive M4AckBundles where
  | RepeatPrevious
  | OneByte (upvotes : List Nat)
  | TwoBytes (upvotes : List Nat)
  | LeadingBy50
deriving DecidableEq

/-- `enum CoinbaseMessage` -/
inductive CoinbaseMessage where
  | M1ProposeSidechain (sidechain_number : Nat) (data : List Nat)
  | M2AckSidechain (sidechain_number : Nat) (data_hash : List Nat)
  | M3ProposeBundle (sidechain_number : Nat) (bundle_txid : List Nat)
  | M4AckBundles (m4 : M4AckBundles)
  | M7BmmAccept (sidechain_number : Nat) (sidechain_block_hash : List Nat)
deriving DecidableEq

/-- `struct M8BmmRequest` -/
structure M8BmmRequest where
  sidechain_number : Nat
  sidechain_block_hash : List Nat
  prev_mainchain_block_hash : List Nat
deriving DecidableEq

/-- nom `tag(t)` on complete input: succeeds iff `t` is a byte-for-byte
prefix of the input, returning the remainder and the matched tag. -/
def tagP (t input : List Nat) : Option (List Nat × List Nat) :=
  if input.take t.length = t then some (input.drop t.length, t) else none

/-- nom `take(n)` on complete input: succeeds iff at least `n` bytes remain,
returning the remainder and the `n` consumed bytes. -/
def takeP (n : Nat) (input : List Nat) : Option (List Nat × List Nat) :=
  if n ≤ input.length then some (input.drop n, input.take n) else none

/-- The `alt((tag(M1..), tag(M2..), tag(M3..), tag(M4..)))` combinator in
`parse_coinbase_script`: tries each registered tag in registration order,
first match wins.  Note the M7 tag is NOT among the alternatives. -/
def altCoinbaseTag (input : List Nat) : Option (List Nat × List Nat) :=
  match tagP M1_PROPOSE_SIDECHAIN_TAG input with
  | some r => some r
  | none =>
  match tagP M2_ACK_SIDECHAIN_TAG input with
  | some r => some r
  | none =>
  match tagP M3_PROPOSE_BUNDLE_TAG input with
  | some r => some r
  | none => tagP M4_ACK_BUNDLES_TAG input

/-- The `alt` over the four M4 sub-tags in `parse_m4_ack_bundles`. -/
def altM4Tag (input : List Nat) : Option (List Nat × List Nat) :=
  match tagP REPEAT_PREVIOUS_TAG input with
  | some r => some r
  | none =>
  match tagP ONE_BYTE_TAG input with
  | some r => some r
  | none =>
  match tagP TWO_BYTES_TAG input with
  | some r => some r
  | none => tagP LEADING_BY_50_TAG input

/-- nom `many0(take(2usize))`: splits the input into consecutive 2-byte
chunks, stopping (without error) as soon as fewer than 2 bytes remain; the
unconsumed remainder has length 0 or 1. -/
def many0take2 : List Nat → List (List Nat) × List Nat
  | a :: b :: rest =>
    let r := many0take2 rest
    ([a, b] :: r.1, r.2)
  | other => ([], other)

/-- `BigEndian::read_u16` on a chunk: big-endian 16-bit value of the first two
bytes; `none` models its panic when fewer than 2 bytes are supplied. -/
def readU16BE (chunk : List Nat) : Option Nat :=
  match chunk with
  | b0 :: b1 :: _ => some (b0 * 256 + b1)
  | _ => none

/-- The `.map(|upvote| BigEndian::read_u16(upvote)).collect()` over the chunk
list: `none` iff `read_u16` would panic on some chunk. -/
def readVotes : List (List Nat) → Option (List Nat)
  | [] => some []
  | c :: cs =>
    match readU16BE c, readVotes cs with
    | some v, some vs => some (v :: vs)
    | _, _ => none

/-- `parse_m1_propose_sidechain` -/
def parse_m1_propose_sidechain (input : List Nat) : PResult CoinbaseMessage :=
  match takeP 1 input with
  | none => .err
  | some (input, sn) =>
    match sn.head? with
    | none => .panic
    | some sidechain_number =>
      .ok [] (.M1ProposeSidechain sidechain_number input)

/-- `parse_m2_ack_sidechain`; the `.try_into().unwrap()` panics (modelled by
`.panic`) exactly when the taken slice is not 32 bytes long. -/
def parse_m2_ack_sidechain (input : List Nat) : PResult CoinbaseMessage :=
  match takeP 1 input with
  | none => .err
  | some (input, sn) =>
    match sn.head? with
    | none => .panic
    | some sidechain_number =>
    match takeP 32 input with
    | none => .err
    | some (input, data_hash) =>
      if data_hash.length = 32 then
        .ok input (.M2AckSidechain sidechain_number data_hash)
      else .panic

/-- `parse_m3_propose_bundle` -/
def parse_m3_propose_bundle (input : List Nat) : PResult CoinbaseMessage :=
  match takeP 1 input with
  | none => .err
  | some (input, sn) =>
    match sn.head? with
    | none => .panic
    | some sidechain_number =>
    match takeP 32 input with
    | none => .err
    | some (input, bundle_txid) =>
      if bundle_txid.length = 32 then
        .ok input (.M3ProposeBundle sidechain_number bundle_txid)
      else .panic

/-- `parse_m4_ack_bundles` -/
def parse_m4_ack_bundles (input : List Nat) : PResult CoinbaseMessage :=
  match altM4Tag input with
  | none => .err
  | some (input, m4_tag) =>
    if m4_tag = REPEAT_PREVIOUS_TAG then
      .ok input (.M4AckBundles .RepeatPrevious)
    else if m4_tag = ONE_BYTE_TAG then
      .ok [] (.M4AckBundles (.OneByte input))
    else if m4_tag = TWO_BYTES_TAG then
      let r := many0take2 input
      match readVotes r.1 with
      | none => .panic
      | some upvotes => .ok r.2 (.M4AckBundles (.TwoBytes upvotes))
    else if m4_tag = LEADING_BY_50_TAG then
      .ok input (.M4AckBundles .LeadingBy50)
    else .err

/-- `parse_m7_bmm_accept` -/
def parse_m7_bmm_accept (input : List Nat) : PResult CoinbaseMessage :=
  match takeP 1 input with
  | none => .err
  | some (input, sn) =>
    match sn.head? with
    | none => .panic
    | some sidechain_number =>
    match takeP 32 input with
    | none => .err
    | some (input, sidechain_block_hash) =>
      if sidechain_block_hash.length = 32 then
        .ok input (.M7BmmAccept sidechain_number sidechain_block_hash)
      else .panic

/-- `parse_coinbase_script`: OP_RETURN prefix, then the 4-tag `alt`, then the
source's if/else-if dispatch chain (including its unreachable M7 arm and the
final `fail(input)`). -/
def parse_coinbase_script (script : List Nat) : PResult CoinbaseMessage :=
  match tagP [OP_RETURN_BYTE] script with
  | none => .err
  | some (input, _) =>
    match altCoinbaseTag input with
    | none => .err
    | some (input, message_tag) =>
      if message_tag = M1_PROPOSE_SIDECHAIN_TAG then parse_m1_propose_sidechain input
      else if message_tag = M2_ACK_SIDECHAIN_TAG then parse_m2_ack_sidechain input
      else if message_tag = M3_PROPOSE_BUNDLE_TAG then parse_m3_propose_bundle input
      else if message_tag = M4_ACK_BUNDLES_TAG then parse_m4_ack_bundles input
      else if message_tag = M7_BMM_ACCEPT_TAG then parse_m7_bmm_accept input
      else .err

/-- `parse_op_drivechain`: the ActivationMarker layout.  The final
`tag(&[OP_TRUE.to_u8()])(input)?` is checked but its output discarded, so a
successful parse returns the input slice from BEFORE that check. -/
def parse_op_drivechain (input : List Nat) : PResult Nat :=
  match tagP [OP_DRIVECHAIN_BYTE, OP_PUSHBYTES_1_BYTE] input with
  | none => .err
  | some (input, _) =>
    match takeP 1 input with
    | none => .err
    | some (input, sn) =>
      match sn.head? with
      | none => .panic
      | some sidechain_number =>
        match tagP [OP_TRUE_BYTE] input with
        | none => .err
        | some _ => .ok input sidechain_number

/-- `parse_m8_bmm_request` -/
def parse_m8_bmm_request (input : List Nat) : PResult M8BmmRequest :=
  match tagP [OP_RETURN_BYTE] input with
  | none => .err
  | some (input, _) =>
    match tagP M8_BMM_REQUEST_TAG input with
    | none => .err
    | some (input, _) =>
      match takeP 1 input with
      | none => .err
      | some (input, sn) =>
        match sn.head? with
        | none => .panic
        | some sidechain_number =>
        match takeP 32 input with
        | none => .err
        | some (input, sidechain_block_hash) =>
        match takeP 32 input with
        | none => .err
        | some (input, prev_mainchain_block_hash) =>
          if sidechain_block_hash.length = 32 ∧ prev_mainchain_block_hash.length = 32 then
            .ok input ⟨sidechain_number, sidechain_block_hash, prev_mainchain_block_hash⟩
          else .panic

/-- `u16::to_be_bytes` (votes are `u16`, i.e. `< 2^16`, in the source). -/
def u16ToBeBytes (v : Nat) : List Nat := [v / 256 % 256, v % 256]

/-- `M4AckBundles::tag` -/
def M4AckBundles.subTag : M4AckBundles → Nat
  | .RepeatPrevious => REPEAT_PREVIOUS_TAG.headD 0
  | .OneByte _ => ONE_BYTE_TAG.headD 0
  | .TwoBytes _ => TWO_BYTES_TAG.headD 0
  | .LeadingBy50 => LEADING_BY_50_TAG.headD 0

/-- `impl Into<ScriptBuf> for CoinbaseMessage`: the encoder, as the script's
byte sequence. -/
def CoinbaseMessage.intoScript : CoinbaseMessage → List Nat
  | .M1ProposeSidechain sidechain_number data =>
    [OP_RETURN_BYTE] ++ M1_PROPOSE_SIDECHAIN_TAG ++ [sidechain_number] ++ data
  | .M2AckSidechain sidechain_number data_hash =>
    [OP_RETURN_BYTE] ++ M2_ACK_SIDECHAIN_TAG ++ [sidechain_number] ++ data_hash
  | .M3ProposeBundle sidechain_number bundle_txid =>
    [OP_RETURN_BYTE] ++ M3_PROPOSE_BUNDLE_TAG ++ [sidechain_number] ++ bundle_txid
  | .M4AckBundles m4 =>
    let upvotes : List Nat :=
      match m4 with
      | .OneByte upvotes => upvotes
      | .TwoBytes upvotes => (upvotes.map u16ToBeBytes).flatten
      | _ => []
    [OP_RETURN_BYTE] ++ M4_ACK_BUNDLES_TAG ++ [m4.subTag] ++ upvotes
  | .M7BmmAccept sidechain_number sidechain_block_hash =>
    [OP_RETURN_BYTE] ++ M7_BMM_ACCEPT_TAG ++ [sidechain_number] ++ sidechain_block_hash

/-- `bitcoin::TxIn` (fields abstracted to byte sequences/numbers; `m6_to_id`
only ever clears the input list, never reads it). -/
structure TxIn where
  previous_output : List Nat
  script_sig : List Nat
  sequence : Nat
  witness : List (List Nat)
deriving DecidableEq

/-- `bitcoin::TxOut` -/
structure TxOut where
  value : Nat
  script_pubkey : List Nat
deriving DecidableEq

/-- `bitcoin::Transaction` -/
structure Transaction where
  version : Nat
  lock_time : Nat
  input : List TxIn
  output : List TxOut
deriving DecidableEq

/-- Rust release-build `u64` subtraction: wraps modulo `2^64` (debug builds
would panic on underflow instead; either way no structured error exists). -/
def rustSub64 (a b : Nat) : Nat := (a % 2 ^ 64 + 2 ^ 64 - b % 2 ^ 64) % 2 ^ 64

/-- `u64::to_be_bytes`: 8 bytes, big-endian. -/
def u64ToBeBytes (n : Nat) : List Nat :=
  [n / 2 ^ 56 % 256, n / 2 ^ 48 % 256, n / 2 ^ 40 % 256, n / 2 ^ 32 % 256,
   n / 2 ^ 24 % 256, n / 2 ^ 16 % 256, n / 2 ^ 8 % 256, n % 256]

/-- The transaction transformation inside `m6_to_id`, i.e. the `M6_blinded`
value the function passes to the external `Transaction::txid` (bitcoin
consensus serialization + sha256d, an external-collaborator capability that
this development does not re-model: every claim about `m6_to_id` concerns
this transformation, not the hash).  `none` models the slice-index panic of
`m6.output[1..]` / `m6.output[0]` on a transaction with no outputs; the fee
subtraction `t_n_minus_1 - t_n - p_total` is unchecked `u64` arithmetic,
modelled with release-build wrapping semantics (`rustSub64`). -/
def m6_blinded (m6 : Transaction) (previous_treasury_utxo_total : Nat) : Option Transaction :=
  match m6.output with
  | [] => none
  | o0 :: rest =>
    let p_total : Nat := ((rest.map TxOut.value).sum) % 2 ^ 64
    let t_n := o0.value
    let t_n_minus_1 := previous_treasury_utxo_total
    let f_total := rustSub64 (rustSub64 t_n_minus_1 t_n) p_total
    let f_total_be_bytes := u64ToBeBytes f_total
    let script_bytes := OP_RETURN_BYTE :: f_total_be_bytes
    some { version := m6.version, lock_time := m6.lock_time, input := [],
           output := (o0 :: rest) ++ [{ value := 0, script_pubkey := script_bytes }] }

/-! Helper lemmas about the parsing primitives. -/

theorem take_len_append (l r : List Nat) : (l ++ r).take l.length = l := by
  induction l with
  | nil => rfl
  | cons a t ih => simp [ih]

theorem drop_len_append (l r : List Nat) : (l ++ r).drop l.length = r := by
  induction l with
  | nil => rfl
  | cons a t ih => simp [ih]

theorem tagP_self (t rest : List Nat) : tagP t (t ++ rest) = some (rest, t) := by
  simp [tagP, take_len_append, drop_len_append]

theorem tagP_single (a : Nat) (rest : List Nat) : tagP [a] (a :: rest) = some (rest, [a]) :=
  tagP_self [a] rest

theorem takeP_one (a : Nat) (l : List Nat) : takeP 1 (a :: l) = some (l, [a]) := by
  unfold takeP
  rw [if_pos (by simp)]
  simp

theorem takeP_exact {n : Nat} (l rest : List Nat) (h : l.length = n) :
    takeP n (l ++ rest) = some (rest, l) := by
  subst h
  simp [takeP, take_len_append, drop_len_append]

theorem takeP_length {n : Nat} {input rest t : List Nat} (h : takeP n input = some (rest, t)) :
    t.length = n := by
  unfold takeP at h
  split at h
  · rename_i hle
    simp only [Option.some.injEq, Prod.mk.injEq] at h
    obtain ⟨h1, h2⟩ := h
    subst h2
    simp [List.length_take]
    omega
  · cases h

/-! Tag-dispatch lemmas: how the `alt` combinators and the dispatch chain of
`parse_coinbase_script` behave on scripts carrying each registered tag. -/

theorem altCoinbaseTag_m2 (rest : List Nat) :
    altCoinbaseTag (0xD6 :: 0xE1 :: 0xC5 :: 0xDF :: rest) = some (rest, M2_ACK_SIDECHAIN_TAG) := by
  simp [altCoinbaseTag, tagP, M1_PROPOSE_SIDECHAIN_TAG, M2_ACK_SIDECHAIN_TAG,
        M3_PROPOSE_BUNDLE_TAG, M4_ACK_BUNDLES_TAG]

theorem altCoinbaseTag_m3 (rest : List Nat) :
    altCoinbaseTag (0xD4 :: 0x5A :: 0xA9 :: 0x43 :: rest) = some (rest, M3_PROPOSE_BUNDLE_TAG) := by
  simp [altCoinbaseTag, tagP, M1_PROPOSE_SIDECHAIN_TAG, M2_ACK_SIDECHAIN_TAG,
        M3_PROPOSE_BUNDLE_TAG, M4_ACK_BUNDLES_TAG]

theorem altCoinbaseTag_m4 (rest : List Nat) :
    altCoinbaseTag (0xD7 :: 0x7D :: 0x17 :: 0x76 :: rest) = some (rest, M4_ACK_BUNDLES_TAG) := by
  simp [altCoinbaseTag, tagP, M1_PROPOSE_SIDECHAIN_TAG, M2_ACK_SIDECHAIN_TAG,
        M3_PROPOSE_BUNDLE_TAG, M4_ACK_BUNDLES_TAG]

theorem parse_coinbase_script_m2 (rest : List Nat) :
    parse_coinbase_script (OP_RETURN_BYTE :: (M2_ACK_SIDECHAIN_TAG ++ rest))
      = parse_m2_ack_sidechain rest := by
  simp [parse_coinbase_script, tagP_single, altCoinbaseTag_m2, M1_PROPOSE_SIDECHAIN_TAG,
        M2_ACK_SIDECHAIN_TAG, M3_PROPOSE_BUNDLE_TAG, M4_ACK_BUNDLES_TAG]

theorem parse_coinbase_script_m3 (rest : List Nat) :
    parse_coinbase_script (OP_RETURN_BYTE :: (M3_PROPOSE_BUNDLE_TAG ++ rest))
      = parse_m3_propose_bundle rest := by
  simp [parse_coinbase_script, tagP_single, altCoinbaseTag_m3, M1_PROPOSE_SIDECHAIN_TAG,
        M2_ACK_SIDECHAIN_TAG, M3_PROPOSE_BUNDLE_TAG, M4_ACK_BUNDLES_TAG]

theorem parse_coinbase_script_m4 (rest : List Nat) :
    parse_coinbase_script (OP_RETURN_BYTE :: (M4_ACK_BUNDLES_TAG ++ rest))
      = parse_m4_ack_bundles rest := by
  simp [parse_coinbase_script, tagP_single, altCoinbaseTag_m4, M1_PROPOSE_SIDECHAIN_TAG,
        M2_ACK_SIDECHAIN_TAG, M3_PROPOSE_BUNDLE_TAG, M4_ACK_BUNDLES_TAG]

theorem altM4Tag_two (payload : List Nat) :
    altM4Tag (0x02 :: payload) = some (payload, TWO_BYTES_TAG) := by
  simp [altM4Tag, tagP, REPEAT_PREVIOUS_TAG, ONE_BYTE_TAG, TWO_BYTES_TAG, LEADING_BY_50_TAG]

/-! Panel of per-kind parser specifications on well-formed layouts. -/

theorem parse_m2_spec (sn : Nat) (h32 extra : List Nat) (hlen : h32.length = 32) :
    parse_m2_ack_sidechain (sn :: (h32 ++ extra)) = .ok extra (.M2AckSidechain sn h32) := by
  simp [parse_m2_ack_sidechain, takeP_one, takeP_exact h32 extra hlen, hlen]

theorem parse_m3_spec (sn : Nat) (h32 extra : List Nat) (hlen : h32.length = 32) :
    parse_m3_propose_bundle (sn :: (h32 ++ extra)) = .ok extra (.M3ProposeBundle sn h32) := by
  simp [parse_m3_propose_bundle, takeP_one, takeP_exact h32 extra hlen, hlen]

theorem parse_m8_spec (sn : Nat) (h32 h32b extra : List Nat)
    (hlen : h32.length = 32) (hlenb : h32b.length = 32) :
    parse_m8_bmm_request (OP_RETURN_BYTE :: (M8_BMM_REQUEST_TAG ++ (sn :: (h32 ++ (h32b ++ extra)))))
      = PResult.ok extra ⟨sn, h32, h32b⟩ := by
  simp [parse_m8_bmm_request, tagP_single, tagP_self, takeP_one,
        takeP_exact h32 (h32b ++ extra) hlen, takeP_exact h32b extra hlenb, hlen, hlenb]

/-! Vote-vector lemmas: `many0(take(2))` produces only 2-byte chunks (so the
big-endian reads never panic), and its unconsumed remainder has length
`input.length % 2` (so an odd input leaves exactly one byte behind). -/

theorem readVotes_many0take2 : ∀ (input : List Nat), ∃ v, readVotes (many0take2 input).1 = some v
  | [] => by simp [many0take2, readVotes]
  | [_] => by simp [many0take2, readVotes]
  | a :: b :: rest => by
    obtain ⟨v, hv⟩ := readVotes_many0take2 rest
    refine ⟨(a * 256 + b) :: v, ?_⟩
    simp [many0take2, readVotes, readU16BE, hv]

theorem many0take2_snd_length : ∀ (input : List Nat), (many0take2 input).2.length = input.length % 2
  | [] => by simp [many0take2]
  | [_] => by simp [many0take2]
  | _ :: _ :: rest => by
    have ih := many0take2_snd_length rest
    simp only [many0take2, List.length_cons, ih]
    omega

/-! Panic-freedom of every parser entry point, for arbitrary input. -/

theorem parse_m1_no_panic (input : List Nat) : parse_m1_propose_sidechain input ≠ PResult.panic := by
  unfold parse_m1_propose_sidechain
  split
  · simp
  · rename_i r sn h
    have hlen := takeP_length h
    cases sn with
    | nil => simp at hlen
    | cons a t => simp

theorem parse_m2_no_panic (input : List Nat) : parse_m2_ack_sidechain input ≠ PResult.panic := by
  unfold parse_m2_ack_sidechain
  split
  · simp
  · rename_i r1 sn h1
    have hlen1 := takeP_length h1
    cases sn with
    | nil => simp at hlen1
    | cons a t =>
      simp only [List.head?_cons]
      split
      · simp
      · rename_i r2 dh h2
        have hlen2 := takeP_length h2
        simp [hlen2]

theorem parse_m3_no_panic (input : List Nat) : parse_m3_propose_bundle input ≠ PResult.panic := by
  unfold parse_m3_propose_bundle
  split
  · simp
  · rename_i r1 sn h1
    have hlen1 := takeP_length h1
    cases sn with
    | nil => simp at hlen1
    | cons a t =>
      simp only [List.head?_cons]
      split
      · simp
      · rename_i r2 dh h2
        have hlen2 := takeP_length h2
        simp [hlen2]

theorem parse_m7_no_panic (input : List Nat) : parse_m7_bmm_accept input ≠ PResult.panic := by
  unfold parse_m7_bmm_accept
  split
  · simp
  · rename_i r1 sn h1
    have hlen1 := takeP_length h1
    cases sn with
    | nil => simp at hlen1
    | cons a t =>
      simp only [List.head?_cons]
      split
      · simp
      · rename_i r2 dh h2
        have hlen2 := takeP_length h2
        simp [hlen2]

theorem parse_m4_no_panic (input : List Nat) : parse_m4_ack_bundles input ≠ PResult.panic := by
  unfold parse_m4_ack_bundles
  split
  · simp
  · rename_i r t h
    split
    · simp
    · split
      · simp
      · split
        · obtain ⟨v, hv⟩ := readVotes_many0take2 r
          simp [hv]
        · split
          · simp
          · simp

theorem parse_coinbase_no_panic (input : List Nat) : parse_coinbase_script input ≠ PResult.panic := by
  unfold parse_coinbase_script
  split
  · simp
  · split
    · simp
    · split
      · exact parse_m1_no_panic _
      · split
        · exact parse_m2_no_panic _
        · split
          · exact parse_m3_no_panic _
          · split
            · exact parse_m4_no_panic _
            · split
              · exact parse_m7_no_panic _
              · simp

theorem parse_m8_no_panic (input : List Nat) : parse_m8_bmm_request input ≠ PResult.panic := by
  unfold parse_m8_bmm_request
  split
  · simp
  · split
    · simp
    · split
      · simp
      · rename_i r2 sn h2
        have hlen2 := takeP_length h2
        cases sn with
        | nil => simp at hlen2
        | cons a t =>
          simp only [List.head?_cons]
          split
          · simp
          · rename_i r3 dh3 h3
            have hlen3 := takeP_length h3
            split
            · simp
            · rename_i r4 dh4 h4
              have hlen4 := takeP_length h4
              simp [hlen3, hlen4]

theorem parse_op_drivechain_no_panic (input : List Nat) :
    parse_op_drivechain input ≠ PResult.panic := by
  unfold parse_op_drivechain
  split
  · simp
  · split
    · simp
    · rename_i r2 sn h2
      have hlen := takeP_length h2
      cases sn with
      | nil => simp at hlen
      | cons a t =>
        simp only [List.head?_cons]
        split
        · simp
        · simp

/-! The claims. -/

/-- C1: the round-trip law fails for `M7BmmAccept`.  The encoder emits
`OP_RETURN ++ D1617368 ++ ...` for it, but the tag alternation in
`parse_coinbase_script` lists only the M1-M4 tags, leaving the M7 dispatch
arm after the `alt` unreachable; decoding the encoding of this concrete
`M7BmmAccept` value therefore fails instead of returning the value. -/
theorem c1_bmm_accept_encode_not_decodable :
    parse_coinbase_script (CoinbaseMessage.intoScript (.M7BmmAccept 0 (List.replicate 32 0)))
      = PResult.err := by
  decide

/-- C2: totality of the decoder.  All three parser entry points are total
functions (termination is structural) and never reach a panic site on any
input: in particular every 32-byte conversion is guarded by a preceding
`take(32)`, so the `try_into().unwrap()` sites are unreachable. -/
theorem c2_decoder_total_never_panics (input : List Nat) :
    parse_coinbase_script input ≠ PResult.panic ∧
    parse_m8_bmm_request input ≠ PResult.panic ∧
    parse_op_drivechain input ≠ PResult.panic :=
  ⟨parse_coinbase_no_panic input, parse_m8_no_panic input, parse_op_drivechain_no_panic input⟩

/-- C3 counterexample: a fixed-shape AckSidechain script with one trailing
byte decodes SUCCESSFULLY (the trailing byte is returned as unconsumed
remainder), contradicting the claim that such scripts are rejected. -/
theorem c3_trailing_byte_accepted :
    parse_coinbase_script
        ([0x6a] ++ M2_ACK_SIDECHAIN_TAG ++ [0x07] ++ List.replicate 32 0x00 ++ [0xAB])
      = PResult.ok [0xAB] (.M2AckSidechain 7 (List.replicate 32 0)) := by
  decide

/-- C3 (amended): for the fixed-shape kinds, trailing bytes after the
required fields are NOT a decode error: parsing succeeds and returns the
message together with the extra bytes as the unconsumed remainder. -/
theorem c3_trailing_bytes_returned_as_remainder (sn : Nat) (h32 h32b extra : List Nat)
    (hlen : h32.length = 32) (hlenb : h32b.length = 32) (_hx : extra ≠ []) :
    parse_coinbase_script ([OP_RETURN_BYTE] ++ M2_ACK_SIDECHAIN_TAG ++ [sn] ++ h32 ++ extra)
      = PResult.ok extra (.M2AckSidechain sn h32) ∧
    parse_coinbase_script ([OP_RETURN_BYTE] ++ M3_PROPOSE_BUNDLE_TAG ++ [sn] ++ h32 ++ extra)
      = PResult.ok extra (.M3ProposeBundle sn h32) ∧
    parse_m8_bmm_request ([OP_RETURN_BYTE] ++ M8_BMM_REQUEST_TAG ++ [sn] ++ h32 ++ (h32b ++ extra))
      = PResult.ok extra ⟨sn, h32, h32b⟩ := by
  refine ⟨?_, ?_, ?_⟩
  · show parse_coinbase_script (OP_RETURN_BYTE :: (M2_ACK_SIDECHAIN_TAG ++ (sn :: (h32 ++ extra)))) = _
    rw [parse_coinbase_script_m2]
    exact parse_m2_spec sn h32 extra hlen
  · show parse_coinbase_script (OP_RETURN_BYTE :: (M3_PROPOSE_BUNDLE_TAG ++ (sn :: (h32 ++ extra)))) = _
    rw [parse_coinbase_script_m3]
    exact parse_m3_spec sn h32 extra hlen
  · exact parse_m8_spec sn h32 h32b extra hlen hlenb

/-- Witness for C3 amended: concrete instantiation. -/
theorem c3_witness :
    (List.replicate 32 (0x00 : Nat)).length = 32 ∧
    (List.replicate 32 (0x01 : Nat)).length = 32 ∧
    ([0xAB] : List Nat) ≠ [] ∧
    (parse_coinbase_script
        ([OP_RETURN_BYTE] ++ M2_ACK_SIDECHAIN_TAG ++ [7] ++ List.replicate 32 0x00 ++ [0xAB])
       = PResult.ok [0xAB] (.M2AckSidechain 7 (List.replicate 32 0x00)) ∧
     parse_coinbase_script
        ([OP_RETURN_BYTE] ++ M3_PROPOSE_BUNDLE_TAG ++ [7] ++ List.replicate 32 0x00 ++ [0xAB])
       = PResult.ok [0xAB] (.M3ProposeBundle 7 (List.replicate 32 0x00)) ∧
     parse_m8_bmm_request
        ([OP_RETURN_BYTE] ++ M8_BMM_REQUEST_TAG ++ [7] ++ List.replicate 32 0x00 ++
          (List.replicate 32 0x01 ++ [0xAB]))
       = PResult.ok [0xAB] ⟨7, List.replicate 32 0x00, List.replicate 32 0x01⟩) :=
  ⟨by decide, by decide, by decide,
   c3_trailing_bytes_returned_as_remainder 7 (List.replicate 32 0x00) (List.replicate 32 0x01)
     [0xAB] (by decide) (by decide) (by decide)⟩

/-- C4 counterexample: an AckBundles/TwoByteVotes script whose payload has
odd length (one byte) decodes SUCCESSFULLY, with zero votes and the odd byte
left as unconsumed remainder - it does not fail with any error. -/
theorem c4_odd_vote_payload_accepted :
    parse_coinbase_script [0x6a, 0xD7, 0x7D, 0x17, 0x76, 0x02, 0x00]
      = PResult.ok [0x00] (.M4AckBundles (.TwoBytes [])) := by
  decide

/-- C4 (amended): for every TwoByteVotes script with an odd-length payload,
decoding succeeds: `many0(take(2))` reads the floor(n/2) big-endian pairs and
the final odd byte is returned as a 1-byte unconsumed remainder; no
odd-length error exists in the code. -/
theorem c4_odd_vote_payload_succeeds (payload : List Nat) (hodd : payload.length % 2 = 1) :
    ∃ upvotes rem,
      parse_coinbase_script ([OP_RETURN_BYTE] ++ M4_ACK_BUNDLES_TAG ++ [0x02] ++ payload)
        = PResult.ok rem (.M4AckBundles (.TwoBytes upvotes)) ∧ rem.length = 1 := by
  obtain ⟨v, hv⟩ := readVotes_many0take2 payload
  refine ⟨v, (many0take2 payload).2, ?_, ?_⟩
  · show parse_coinbase_script (OP_RETURN_BYTE :: (M4_ACK_BUNDLES_TAG ++ (0x02 :: payload))) = _
    rw [parse_coinbase_script_m4]
    simp [parse_m4_ack_bundles, altM4Tag_two, REPEAT_PREVIOUS_TAG, ONE_BYTE_TAG,
          TWO_BYTES_TAG, LEADING_BY_50_TAG, hv]
  · rw [many0take2_snd_length, hodd]

/-- Witness for C4 amended: payload `[0x00]`. -/
theorem c4_witness :
    ([0x00] : List Nat).length % 2 = 1 ∧
    ∃ upvotes rem,
      parse_coinbase_script ([OP_RETURN_BYTE] ++ M4_ACK_BUNDLES_TAG ++ [0x02] ++ [0x00])
        = PResult.ok rem (.M4AckBundles (.TwoBytes upvotes)) ∧ rem.length = 1 :=
  ⟨by decide, c4_odd_vote_payload_succeeds [0x00] (by decide)⟩

/-- C5 (code_bug evidence): the fee computation `t_n_minus_1 - t_n - p_total`
is an UNCHECKED u64 subtraction.  On the failing input (a single output of
value 1, previous treasury total 0, so `T_prev < T_new + P`) the release-build
semantics wrap the fee to `2^64 - 1` and the blinded transaction (hence a
digest) is still produced, with fee-commitment bytes `FF..FF`; no
checked-arithmetic error is reported (debug builds would panic instead -
either way there is no structured error, the function returns `[u8; 32]`). -/
theorem c5_fee_underflow_wraps_silently :
    m6_blinded { version := 2, lock_time := 0, input := [],
                 output := [{ value := 1, script_pubkey := [] }] } 0
      = some { version := 2, lock_time := 0, input := [],
               output := [{ value := 1, script_pubkey := [] },
                          { value := 0,
                            script_pubkey := OP_RETURN_BYTE :: List.replicate 8 0xFF }] } := by
  decide

/-- C6 counterexample: on the byte-exact ActivationMarker layout
(`OP_NOP5, OP_PUSHBYTES_1, sidechain number 5, OP_TRUE`) the decoder
`parse_coinbase_script` FAILS outright - it never attempts the marker layout
(its message type has no marker variant at all) - while the separate entry
point `parse_op_drivechain` accepts the very same bytes. -/
theorem c6_marker_layout_not_attempted :
    parse_coinbase_script [0xB4, 0x01, 0x05, 0x51] = PResult.err ∧
    parse_op_drivechain [0xB4, 0x01, 0x05, 0x51] = PResult.ok [0x51] 5 := by
  decide

/-- C6 (amended): `parse_coinbase_script` handles only the OP_RETURN family:
on any script whose first byte is not OP_RETURN it returns an error
immediately, without attempting the ActivationMarker layout (which is
recognized only by the independent entry point `parse_op_drivechain`, never
called by the decoder). -/
theorem c6_decoder_requires_op_return (input : List Nat)
    (h : input.head? ≠ some OP_RETURN_BYTE) :
    parse_coinbase_script input = PResult.err := by
  unfold parse_coinbase_script
  have hcond : ¬ (input.take 1 = [OP_RETURN_BYTE]) := by
    intro hc
    cases input with
    | nil => simp at hc
    | cons b t =>
      simp at hc
      exact h (by simp [hc])
  have hnone : tagP [OP_RETURN_BYTE] input = none := by
    simp [tagP, hcond]
  rw [hnone]

/-- Witness for C6 amended: the input `[0x00]`. -/
theorem c6_witness :
    (([0x00] : List Nat).head? ≠ some OP_RETURN_BYTE) ∧
    parse_coinbase_script [0x00] = PResult.err :=
  ⟨by decide, c6_decoder_requires_op_return [0x00] (by decide)⟩

/-- C7: commitment fee-output invariant.  For a transaction whose payout
outputs (all but index 0) sum to 0, with treasury output value `T_new ≤
T_prev < 2^64`, the blinded transaction that `m6_to_id` hashes has an empty
input list and one extra final output of value 0 whose script is the
OP_RETURN byte followed by exactly the 8-byte big-endian encoding of
`F = T_prev - T_new`. -/
theorem c7_commitment_invariant (tx : Transaction) (t_prev : Nat) (o0 : TxOut)
    (rest : List TxOut)
    (hout : tx.output = o0 :: rest)
    (hP : (rest.map TxOut.value).sum = 0)
    (hT : o0.value ≤ t_prev) (hbound : t_prev < 2 ^ 64) :
    m6_blinded tx t_prev
      = some { version := tx.version, lock_time := tx.lock_time, input := [],
               output := tx.output ++
                 [{ value := 0,
                    script_pubkey := OP_RETURN_BYTE :: u64ToBeBytes (t_prev - o0.value) }] } ∧
    (u64ToBeBytes (t_prev - o0.value)).length = 8 := by
  constructor
  · have hf : rustSub64 (rustSub64 t_prev o0.value) ((rest.map TxOut.value).sum % 2 ^ 64)
        = t_prev - o0.value := by
      rw [hP]
      unfold rustSub64
      have h64 : (2 : Nat) ^ 64 = 18446744073709551616 := by norm_num
      rw [h64]
      omega
    simp only [m6_blinded, hout, hf]
  · rfl

/-- Witness for C7: a transaction with the single (treasury) output of value
10 and previous treasury total 15; the fee committed is 5. -/
theorem c7_witness :
    m6_blinded { version := 2, lock_time := 0, input := [],
                 output := [{ value := 10, script_pubkey := [] }] } 15
      = some { version := 2, lock_time := 0, input := [],
               output := [{ value := 10, script_pubkey := [] }] ++
                 [{ value := 0,
                    script_pubkey := OP_RETURN_BYTE :: u64ToBeBytes (15 - 10) }] } ∧
    (u64ToBeBytes (15 - 10)).length = 8 := by
  exact c7_commitment_invariant _ 15 { value := 10, script_pubkey := [] } [] rfl rfl
    (by norm_num) (by norm_num)

/-- C8: concrete TwoByteVotes scenario.  Decoding
`OP_RETURN || D77D1776 || 02 || 00 05 || FF FF` yields
`AckBundles(TwoBytes [5, 65535])`: the 16-bit values are read big-endian and
`0xFFFF` is the two-byte abstain sentinel, 65535. -/
theorem c8_two_byte_votes_scenario :
    parse_coinbase_script [0x6a, 0xD7, 0x7D, 0x17, 0x76, 0x02, 0x00, 0x05, 0xFF, 0xFF]
      = PResult.ok [] (.M4AckBundles (.TwoBytes [5, ABSTAIN_TWO_BYTES])) ∧
    ABSTAIN_TWO_BYTES = 65535 := by
  decide

/-- C9: `parse_op_drivechain` checks the trailing OP_TRUE byte but does not
consume it: on the marker layout (with anything after the OP_TRUE byte) it
succeeds and the remaining-input slice still begins with OP_TRUE. -/
theorem c9_op_true_checked_not_consumed (n : Nat) (rest : List Nat) :
    parse_op_drivechain (OP_DRIVECHAIN_BYTE :: OP_PUSHBYTES_1_BYTE :: n :: OP_TRUE_BYTE :: rest)
      = PResult.ok (OP_TRUE_BYTE :: rest) n ∧
    (OP_TRUE_BYTE :: rest).head? = some OP_TRUE_BYTE := by
  constructor
  · simp [parse_op_drivechain, tagP, takeP, OP_DRIVECHAIN_BYTE, OP_PUSHBYTES_1_BYTE,
          OP_TRUE_BYTE]
  · rfl

/-- C10: the blinded-transaction construction inside `m6_to_id` is defined
exactly for transactions with at least one output: it returns `none` (the
out-of-bounds panic of `output[0]` / `output[1..]`) precisely when the output
list is empty, and for every non-empty output list it produces a blinded
transaction (from which the digest is then computed). -/
theorem c10_m6_defined_iff_outputs_nonempty (tx : Transaction) (t : Nat) :
    m6_blinded tx t = none ↔ tx.output = [] := by
  cases h : tx.output with
  | nil => simp [m6_blinded, h]
  | cons o0 rest => simp [m6_blinded, h]
